import Mathlib

/-!
Verification of the Zibal payment callback proxy (`main.py` / `config.py`).

The development shallowly embeds the two pieces of the program the claims
are about:

* `create_signature` — the HMAC-SHA256 webhook signature (`main.py`,
  `create_signature`), built on an executable `Nat`-based SHA-256/HMAC;
* `zibal_callback` — the callback handler (`main.py`, `zibal_callback`),
  modelled as a pure function of the inbound parameters and of the
  outcomes of the two outbound HTTP calls, returning the redirect
  response together with the ordered list of outbound requests issued.

Python-specific semantics (decimal rendering of `int`, `str()` of parsed
JSON values, truthiness, `dict.get`, `int(str)`) are embedded explicitly.
-/

/-! ### Python integer rendering (`str(int)`) -/

/-- Little-endian decimal digits of `n`, with explicit fuel (the fuel is
always instantiated with `n` itself, which suffices). `natDigitsAux f 0 = []`. -/
def natDigitsAux : Nat → Nat → List Nat
  | 0, _ => []
  | fuel + 1, n => if n = 0 then [] else n % 10 :: natDigitsAux fuel (n / 10)

/-- Little-endian decimal digits of `n` (empty for `0`). -/
def natDigits (n : Nat) : List Nat := natDigitsAux n n

/-- The ASCII character of a decimal digit. -/
def digitChar (d : Nat) : Char := Char.ofNat (48 + d)

/-- Decimal rendering of a natural number, as Python `str` renders it. -/
def natRepr (n : Nat) : String :=
  if n = 0 then "0" else String.mk ((natDigits n).reverse.map digitChar)

/-- Python `str()` of an `int`: decimal digits, `-` sign for negatives. -/
def pyIntRepr : Int → String
  | .ofNat n => natRepr n
  | .negSucc m => "-" ++ natRepr (m + 1)

/-! ### Python `int(str)` parsing

Models CPython `int()` on ASCII input: optional surrounding whitespace,
an optional `+`/`-` sign, then one or more ASCII decimal digits.
(Python's underscore digit separators and non-ASCII digits are not
modelled; no claim depends on them.) -/

/-- Numeric value of a list of ASCII digit characters (most significant first). -/
def digitsVal (cs : List Char) : Nat :=
  cs.foldl (fun a c => 10 * a + (c.toNat - 48)) 0

/-- ASCII whitespace as Python `int()` strips it. -/
def isPySpace (c : Char) : Bool :=
  c = ' ' || c = Char.ofNat 9 || c = Char.ofNat 10 ||
  c = Char.ofNat 11 || c = Char.ofNat 12 || c = Char.ofNat 13

/-- Strip leading and trailing whitespace from a character list. -/
def pyStrip (cs : List Char) : List Char :=
  ((cs.dropWhile isPySpace).reverse.dropWhile isPySpace).reverse

/-- Python `int(s)`: `some` of the parsed value, `none` when `int()` raises
`ValueError`. -/
def pyParseInt (s : String) : Option Int :=
  match pyStrip s.data with
  | [] => none
  | c :: rest =>
    let signed : Int × List Char :=
      if c = '-' then (-1, rest)
      else if c = '+' then (1, rest)
      else (1, c :: rest)
    if signed.2 ≠ [] ∧ signed.2.all Char.isDigit then
      some (signed.1 * (digitsVal signed.2 : Int))
    else none

/-! ### SHA-256 over byte lists (`hashlib.sha256`)

Bytes and 32-bit words are `Nat`s, reduced mod `2^32` wherever the
algorithm requires wraparound. -/

/-- Truncate a `Nat` to its low 32 bits. -/
def w32 (n : Nat) : Nat := n % 4294967296

/-- Rotate the 32-bit word `x` right by `n` positions. -/
def rotr (n x : Nat) : Nat := w32 ((x >>> n) ||| (x <<< (32 - n)))

def shaCh (x y z : Nat) : Nat := (x &&& y) ^^^ ((x ^^^ 4294967295) &&& z)

def shaMaj (x y z : Nat) : Nat := (x &&& y) ^^^ (x &&& z) ^^^ (y &&& z)

def bsig0 (x : Nat) : Nat := rotr 2 x ^^^ rotr 13 x ^^^ rotr 22 x

def bsig1 (x : Nat) : Nat := rotr 6 x ^^^ rotr 11 x ^^^ rotr 25 x

def ssig0 (x : Nat) : Nat := rotr 7 x ^^^ rotr 18 x ^^^ (x >>> 3)

def ssig1 (x : Nat) : Nat := rotr 17 x ^^^ rotr 19 x ^^^ (x >>> 10)

/-- The 64 SHA-256 round constants (FIPS 180-4), written in decimal. -/
def shaK : List Nat :=
  [1116352408, 1899447441, 3049323471, 3921009573, 961987163,
   1508970993, 2453635748, 2870763221, 3624381080, 310598401,
   607225278, 1426881987, 1925078388, 2162078206, 2614888103,
   3248222580, 3835390401, 4022224774, 264347078, 604807628,
   770255983, 1249150122, 1555081692, 1996064986, 2554220882,
   2821834349, 2952996808, 3210313671, 3336571891, 3584528711,
   113926993, 338241895, 666307205, 773529912, 1294757372,
   1396182291, 1695183700, 1986661051, 2177026350, 2456956037,
   2730485921, 2820302411, 3259730800, 3345764771, 3516065817,
   3600352804, 4094571909, 275423344, 430227734, 506948616,
   659060556, 883997877, 958139571, 1322822218, 1537002063,
   1747873779, 1955562222, 2024104815, 2227730452, 2361852424,
   2428436474, 2756734187, 3204031479, 3329325298]

/-- The eight 32-bit words of SHA-256 working state. -/
structure Sha256State where
  a : Nat
  b : Nat
  c : Nat
  d : Nat
  e : Nat
  f : Nat
  g : Nat
  h : Nat

/-- The SHA-256 initial hash state, written in decimal. -/
def shaInit : Sha256State :=
  ⟨1779033703, 3144134277, 1013904242, 2773480762,
   1359893119, 2600822924, 528734635, 1541459225⟩

/-- One SHA-256 compression round with constant `k` and schedule word `w`. -/
def shaRound (s : Sha256State) (kw : Nat × Nat) : Sha256State :=
  let t1 := w32 (s.h + bsig1 s.e + shaCh s.e s.f s.g + kw.1 + kw.2)
  let t2 := w32 (bsig0 s.a + shaMaj s.a s.b s.c)
  ⟨w32 (t1 + t2), s.a, s.b, s.c, w32 (s.d + t1), s.e, s.f, s.g⟩

/-- Pointwise mod-`2^32` addition of two states. -/
def addState (x y : Sha256State) : Sha256State :=
  ⟨w32 (x.a + y.a), w32 (x.b + y.b), w32 (x.c + y.c), w32 (x.d + y.d),
   w32 (x.e + y.e), w32 (x.f + y.f), w32 (x.g + y.g), w32 (x.h + y.h)⟩

/-- Big-endian 64-bit encoding of `n` as 8 bytes. -/
def be64 (n : Nat) : List Nat :=
  [(n >>> 56) % 256, (n >>> 48) % 256, (n >>> 40) % 256, (n >>> 32) % 256,
   (n >>> 24) % 256, (n >>> 16) % 256, (n >>> 8) % 256, n % 256]

/-- SHA-256 padding: append `0x80`, zero bytes up to 56 mod 64, then the
bit length as a big-endian 64-bit integer.  The zero count is
`(55 - len) mod 64` computed as `(55 + 64 - len % 64) % 64` so that the
subtraction never truncates (for `len % 64` in 56–63 this correctly
gives 63 down to 56 zero bytes, rolling into a second block). -/
def sha256Pad (msg : List Nat) : List Nat :=
  let len := msg.length
  let padZeros := (55 + 64 - len % 64) % 64
  msg ++ [0x80] ++ List.replicate padZeros 0 ++ be64 (8 * len)

/-- Split a byte list into 64-byte blocks (fuel-structural; the fuel is
always the list length, which suffices). -/
def toBlocksAux : Nat → List Nat → List (List Nat)
  | 0, _ => []
  | _ + 1, [] => []
  | fuel + 1, l => l.take 64 :: toBlocksAux fuel (l.drop 64)

def toBlocks (l : List Nat) : List (List Nat) := toBlocksAux l.length l

/-- Parse `k` big-endian 32-bit words from a byte list. -/
def toWordsAux : Nat → List Nat → List Nat
  | 0, _ => []
  | k + 1, b0 :: b1 :: b2 :: b3 :: rest =>
      (((b0 * 256 + b1) * 256 + b2) * 256 + b3) :: toWordsAux k rest
  | _ + 1, _ => []

/-- Extend a 16-word message schedule to 64 words (`fuel = 48`). -/
def extendW : Nat → List Nat → List Nat
  | 0, ws => ws
  | fuel + 1, ws =>
    let t := ws.length
    let x := w32 (ssig1 (ws.getD (t - 2) 0) + ws.getD (t - 7) 0 +
                  ssig0 (ws.getD (t - 15) 0) + ws.getD (t - 16) 0)
    extendW fuel (ws ++ [x])

/-- Process one 64-byte block into the running state. -/
def shaBlock (st : Sha256State) (block : List Nat) : Sha256State :=
  let ws := extendW 48 (toWordsAux 16 block)
  addState st ((shaK.zip ws).foldl shaRound st)

/-- Big-endian bytes of a 32-bit word. -/
def wordBytes (w : Nat) : List Nat :=
  [(w >>> 24) % 256, (w >>> 16) % 256, (w >>> 8) % 256, w % 256]

/-- SHA-256 digest (32 bytes) of a byte list. -/
def sha256 (msg : List Nat) : List Nat :=
  let fin := (toBlocks (sha256Pad msg)).foldl shaBlock shaInit
  wordBytes fin.a ++ wordBytes fin.b ++ wordBytes fin.c ++ wordBytes fin.d ++
  wordBytes fin.e ++ wordBytes fin.f ++ wordBytes fin.g ++ wordBytes fin.h

/-! ### HMAC-SHA256 (`hmac.new(key, msg, hashlib.sha256)`) -/

/-- HMAC-SHA256 digest (32 bytes) with the given key and message bytes. -/
def hmacSha256 (key msg : List Nat) : List Nat :=
  let k0 := if key.length > 64 then sha256 key else key
  let kp := k0 ++ List.replicate (64 - k0.length) 0
  sha256 ((kp.map (· ^^^ 0x5c)) ++ sha256 ((kp.map (· ^^^ 0x36)) ++ msg))

/-! ### Hex encoding (`.hexdigest()`) and UTF-8 (`str.encode()`) -/

/-- Lowercase hex character of a nibble. -/
def hexChar (n : Nat) : Char :=
  if n < 10 then Char.ofNat (48 + n) else Char.ofNat (97 + (n - 10))

/-- Two lowercase hex characters of a byte. -/
def byteHex (b : Nat) : List Char := [hexChar (b / 16 % 16), hexChar (b % 16)]

/-- Python `.hexdigest()`: lowercase hexadecimal encoding of a byte list. -/
def hexdigest (bytes : List Nat) : String := String.mk ((bytes.map byteHex).flatten)

/-- UTF-8 encoding of one character. -/
def utf8EncodeChar (c : Char) : List Nat :=
  let n := c.toNat
  if n < 0x80 then [n]
  else if n < 0x800 then [0xc0 ||| (n >>> 6), 0x80 ||| (n &&& 0x3f)]
  else if n < 0x10000 then
    [0xe0 ||| (n >>> 12), 0x80 ||| ((n >>> 6) &&& 0x3f), 0x80 ||| (n &&& 0x3f)]
  else
    [0xf0 ||| (n >>> 18), 0x80 ||| ((n >>> 12) &&& 0x3f),
     0x80 ||| ((n >>> 6) &&& 0x3f), 0x80 ||| (n &&& 0x3f)]

/-- UTF-8 encoding of a string (Python `str.encode()`). -/
def utf8Encode (s : String) : List Nat := (s.data.map utf8EncodeChar).flatten

/-! ### Parsed JSON values and the Python semantics the handler uses -/

/-- A parsed JSON value, as produced by `response.json()`.  Numbers are
modelled as integers (no claim involves fractional JSON numbers);
objects are association lists. -/
inductive Json where
  | null
  | bool (b : Bool)
  | num (n : Int)
  | str (s : String)
  | arr (elems : List Json)
  | obj (fields : List (String × Json))

/-- Python `dict.get(key)` on a parsed JSON object: `some` of the first
binding of `key`, `none` when absent. -/
def objGet (fields : List (String × Json)) (key : String) : Option Json :=
  (fields.find? (fun p => p.1 == key)).map (fun p => p.2)

/-- Python truthiness of a parsed JSON value (`None`, `False`, `0`, `""`,
`[]`, `{}` are falsy; everything else truthy). -/
def truthy : Json → Bool
  | .null => false
  | .bool b => b
  | .num n => n != 0
  | .str s => s != ""
  | .arr xs => !xs.isEmpty
  | .obj fs => !fs.isEmpty

/-- Python `==` between a parsed JSON value and an integer literal
(`True == 1` holds in Python; strings, `None` and containers never equal
an integer). -/
def pyEqNum : Json → Int → Bool
  | .num m, n => m == n
  | .bool b, n => (if b then (1 : Int) else 0) == n
  | _, _ => false

/-- Python `== n` on the result of `dict.get` (`None == n` is `False`). -/
def pyEqNumOpt : Option Json → Int → Bool
  | some v, n => pyEqNum v n
  | none, _ => false

/-- Python `repr` escaping inside a single-quoted string literal:
backslash and the quote character are escaped (control-character escapes
are not modelled; no claim exercises them). -/
def pyEscapeChar (c : Char) : List Char :=
  if c = Char.ofNat 92 then [Char.ofNat 92, Char.ofNat 92]
  else if c = Char.ofNat 39 then [Char.ofNat 92, Char.ofNat 39]
  else [c]

/-- Python `repr` of a string: single-quoted, escaped. -/
def pyStrRepr (s : String) : String :=
  String.mk (Char.ofNat 39 :: (s.data.map pyEscapeChar).flatten ++ [Char.ofNat 39])

mutual

/-- Python `repr()` of a parsed JSON value. -/
def pyRepr : Json → String
  | .null => "None"
  | .bool true => "True"
  | .bool false => "False"
  | .num n => pyIntRepr n
  | .str s => pyStrRepr s
  | .arr xs => "[" ++ pyReprList xs ++ "]"
  | .obj fs => "\x7b" ++ pyReprFields fs ++ "\x7d"

/-- Comma-join of the `repr`s of list elements. -/
def pyReprList : List Json → String
  | [] => ""
  | [x] => pyRepr x
  | x :: xs => pyRepr x ++ ", " ++ pyReprList xs

/-- Comma-join of the `repr key: repr value` entries of a dict. -/
def pyReprFields : List (String × Json) → String
  | [] => ""
  | [kv] => pyStrRepr kv.1 ++ ": " ++ pyRepr kv.2
  | kv :: fs => pyStrRepr kv.1 ++ ": " ++ pyRepr kv.2 ++ ", " ++ pyReprFields fs

end

/-- Python `str()` of a parsed JSON value, as an f-string interpolates it:
a string is itself, everything else is its `repr`. -/
def pyStr : Json → String
  | .str s => s
  | v => pyRepr v

/-! ### Configuration (`config.py`, class `Settings`) -/

/-- The application settings (`config.py`).  Defaults are irrelevant to
the claims; all fields are explicit. -/
structure Settings where
  ZIBAL_MERCHANT_ID : String
  ZIBAL_VERIFY_URL : String
  ZIBAL_PAYMENT_URL : String
  TICKETING_API_URL : String
  TICKETING_FRONTEND_URL : String
  WEBHOOK_SECRET : String
  DEBUG : Bool

/-! ### The webhook signature (`main.py`, `create_signature`) -/

/-- The `webhook_data` dict built by `zibal_callback`: the inbound
parameters, the parsed verify response, and the generation timestamp. -/
structure WebhookData where
  trackId : String
  success : Int
  status : Int
  orderId : Option String
  verifyResult : Json
  timestamp : String

/-- The signed message: the f-string `"{trackId}:{success}:{status}"`
(`str` interpolates a string as itself and an int in decimal). -/
def createSignatureMessage (trackId : String) (success status : Int) : String :=
  trackId ++ ":" ++ pyIntRepr success ++ ":" ++ pyIntRepr status

/-- Model of `create_signature` (`main.py`): HMAC-SHA256 of the UTF-8 bytes of
`"{data['trackId']}:{data['success']}:{data['status']}"`, keyed with the
UTF-8 bytes of `settings.WEBHOOK_SECRET`, hex-encoded. -/
def create_signature (settings : Settings) (data : WebhookData) : String :=
  let message := createSignatureMessage data.trackId data.success data.status
  hexdigest (hmacSha256 (utf8Encode settings.WEBHOOK_SECRET) (utf8Encode message))

/-- The signature scheme as the specification words it (spec §4.2): the
message is the colon-join of trackId and the decimal forms of success and
status, in that order; the digest is HMAC-SHA256 keyed with the shared
webhook secret over the message's UTF-8 bytes, encoded as lowercase hex. -/
def sign (secret trackId : String) (success status : Int) : String :=
  let message := String.intercalate ":" [trackId, pyIntRepr success, pyIntRepr status]
  hexdigest (hmacSha256 (utf8Encode secret) (utf8Encode message))

/-! ### The callback handler (`main.py`, `zibal_callback`)

The handler is modelled as a pure function of the inbound query
parameters, the generated timestamp, and the outcomes of the two
outbound POSTs.  It returns the `RedirectResponse` together with the
ordered list of outbound requests issued (used for the sequencing and
no-retry claims). -/

/-- Outcome of one outbound HTTP call as the handler observes it:
a transport-level `httpx.RequestError`, a response whose `.json()`
raises, or a successfully parsed body. -/
inductive CallOutcome where
  | networkError
  | badBody
  | ok (body : Json)

/-- An outbound request issued by the handler: the verify POST (with its
JSON body fields) or the webhook POST (with payload and signature header). -/
inductive OutboundCall where
  | verifyCall (merchant : String) (trackId : Int)
  | webhookCall (body : WebhookData) (signature : String)

/-- A `RedirectResponse`. -/
structure Response where
  url : String
  status_code : Nat
deriving DecidableEq

/-- Model of `zibal_callback` (`main.py`).  Mirrors the source line by line:
`int(trackId)` raising `ValueError` is caught by the blanket
`except Exception` (System error); `httpx.RequestError` on either call is
caught by the first handler (Connection error); a `.json()` that raises,
or a `.get` on a non-dict body, is again `except Exception` (System
error).  The decision `verify_result.get("result") == 100 and
webhook_result.get("success")` short-circuits, so the webhook body is
only inspected when the verify result equals 100. -/
def zibal_callback (settings : Settings) (trackId : String) (success status : Int)
    (orderId : Option String) (now : String)
    (verifyOutcome webhookOutcome : CallOutcome) : Response × List OutboundCall :=
  let systemError : Response :=
    ⟨settings.TICKETING_FRONTEND_URL ++ "/payment/failed?error=System+error", 303⟩
  let connectionError : Response :=
    ⟨settings.TICKETING_FRONTEND_URL ++ "/payment/failed?error=Connection+error", 303⟩
  match pyParseInt trackId with
  | none => (systemError, [])
  | some tid =>
    let calls0 := [OutboundCall.verifyCall settings.ZIBAL_MERCHANT_ID tid]
    match verifyOutcome with
    | .networkError => (connectionError, calls0)
    | .badBody => (systemError, calls0)
    | .ok verify_result =>
      let webhook_data : WebhookData :=
        ⟨trackId, success, status, orderId, verify_result, now⟩
      let signature := create_signature settings webhook_data
      let calls := calls0 ++ [OutboundCall.webhookCall webhook_data signature]
      match webhookOutcome with
      | .networkError => (connectionError, calls)
      | .badBody => (systemError, calls)
      | .ok webhook_result =>
        match verify_result with
        | .obj vf =>
          if pyEqNumOpt (objGet vf "result") 100 then
            match webhook_result with
            | .obj wf =>
              if truthy ((objGet wf "success").getD .null) then
                (⟨settings.TICKETING_FRONTEND_URL ++ "/payment/success" ++
                    "?ref_id=" ++ pyStr ((objGet wf "ref_number").getD .null) ++
                    "&reservation_id=" ++ pyStr ((objGet wf "reservation_id").getD .null),
                  303⟩, calls)
              else
                (⟨settings.TICKETING_FRONTEND_URL ++ "/payment/failed" ++
                    "?error=" ++ pyStr ((objGet vf "message").getD (.str "Unknown error")) ++
                    "&trackId=" ++ trackId,
                  303⟩, calls)
            | _ => (systemError, calls)
          else
            (⟨settings.TICKETING_FRONTEND_URL ++ "/payment/failed" ++
                "?error=" ++ pyStr ((objGet vf "message").getD (.str "Unknown error")) ++
                "&trackId=" ++ trackId,
              303⟩, calls)
        | _ => (systemError, calls)

/-- Does an outbound call hit the gateway verify endpoint? -/
def isVerifyCall : OutboundCall → Bool
  | .verifyCall _ _ => true
  | _ => false

/-- Does an outbound call hit the internal webhook endpoint? -/
def isWebhookCall : OutboundCall → Bool
  | .webhookCall _ _ => true
  | _ => false

/-- Is a parsed JSON value a mapping (a Python `dict`)? -/
def isObj : Json → Bool
  | .obj _ => true
  | _ => false

/-- A concrete settings value used to instantiate theorems on concrete runs. -/
def demoSettings : Settings :=
  ⟨"zibal", "https://gateway.zibal.ir/v1/verify", "https://gateway.zibal.ir/start/",
   "https://api.example.com", "https://fe.example.com", "secret", false⟩

/-! ### Auxiliary definitions for the signature injectivity analysis -/

/-- Value of a little-endian decimal digit list (round-trip inverse of
`natDigits`). -/
def ofDigits : List Nat → Nat
  | [] => 0
  | d :: ds => d + 10 * ofDigits ds

/-- Digit list of `n` padded so that `0` renders as `[0]` — the digit
list `natRepr` actually prints. -/
def natDigitsPad (n : Nat) : List Nat :=
  if n = 0 then [0] else natDigits n

/-- The HMAC digest bytes signed for trackId `t` (success 1, status 2)
under `demoSettings` — `create_signature` is `hexdigest` of this. -/
def demoDigestBytes (t : String) : List Nat :=
  hmacSha256 (utf8Encode demoSettings.WEBHOOK_SECRET)
    (utf8Encode (createSignatureMessage t 1 2))

/-- The digest bytes of `demoDigestBytes` as a function into the finite
type `Fin 32 → Fin 256` (the `% 256` is the identity on digest bytes). -/
def demoByteFun (t : String) : Fin 32 → Fin 256 :=
  fun i => ⟨(demoDigestBytes t).getD i 0 % 256, Nat.mod_lt _ (by norm_num)⟩

/-! ## Claim theorems -/

/-- C7: for every input and every outcome of the two outbound calls,
`zibal_callback` returns a 303 redirect (never a 5xx; the model is a
total function, so no exception propagates). -/
theorem zibal_callback_always_303 (settings : Settings) (trackId : String)
    (success status : Int) (orderId : Option String) (now : String)
    (vo wo : CallOutcome) :
    (zibal_callback settings trackId success status orderId now vo wo).1.status_code = 303 := by
  unfold zibal_callback
  rcases pyParseInt trackId with _ | tid
  · rfl
  rcases vo with _ | _ | v
  · rfl
  · rfl
  rcases wo with _ | _ | w
  · rfl
  · rfl
  rcases v with _ | b | n | s | xs | vf <;> try rfl
  by_cases hr : pyEqNumOpt (objGet vf "result") 100 = true
  · rcases w with _ | b | n | s | xs | wf <;> simp [hr]
    by_cases hs : truthy ((objGet wf "success").getD .null) = true <;> simp [hs]
  · simp [hr]

/-- C1: when the verify body is a mapping with `result == 100` and the
forward body is a mapping with a truthy `success`, the handler redirects
(303) to `<frontend>/payment/success?ref_id=<ref_number>&reservation_id=
<reservation_id>`, both values rendered from the forward response. -/
theorem zibal_callback_success_redirect (settings : Settings) (trackId : String)
    (success status : Int) (orderId : Option String) (now : String) (tid : Int)
    (vf wf : List (String × Json))
    (hp : pyParseInt trackId = some tid)
    (hr : pyEqNumOpt (objGet vf "result") 100 = true)
    (hs : truthy ((objGet wf "success").getD .null) = true) :
    (zibal_callback settings trackId success status orderId now
        (.ok (.obj vf)) (.ok (.obj wf))).1 =
      ⟨settings.TICKETING_FRONTEND_URL ++ "/payment/success" ++
        "?ref_id=" ++ pyStr ((objGet wf "ref_number").getD .null) ++
        "&reservation_id=" ++ pyStr ((objGet wf "reservation_id").getD .null), 303⟩ := by
  unfold zibal_callback
  rw [hp]
  simp [hr, hs]

/-- C1 witness: the spec's concrete scenario. -/
theorem zibal_callback_success_redirect_witness :
    (zibal_callback demoSettings "998877" 1 2 none "2024-01-01T00:00:00"
        (.ok (.obj [("result", Json.num 100)]))
        (.ok (.obj [("success", Json.bool true), ("ref_number", Json.str "R1"),
                    ("reservation_id", Json.str "RES1")]))).1 =
      ⟨"https://fe.example.com/payment/success?ref_id=R1&reservation_id=RES1", 303⟩ :=
  (zibal_callback_success_redirect demoSettings "998877" 1 2 none "2024-01-01T00:00:00"
      998877 [("result", Json.num 100)]
      [("success", Json.bool true), ("ref_number", Json.str "R1"),
       ("reservation_id", Json.str "RES1")]
      (by decide) rfl rfl).trans (by decide)

/-- C2: when both bodies parse as mappings but the combination is not
(`result == 100` and truthy `success`), the handler redirects (303) to
`<frontend>/payment/failed?error=<message or "Unknown error">&trackId=
<trackId>`, echoing the inbound trackId string. -/
theorem zibal_callback_failure_redirect (settings : Settings) (trackId : String)
    (success status : Int) (orderId : Option String) (now : String) (tid : Int)
    (vf wf : List (String × Json))
    (hp : pyParseInt trackId = some tid)
    (hcomb : (pyEqNumOpt (objGet vf "result") 100 &&
              truthy ((objGet wf "success").getD .null)) = false) :
    (zibal_callback settings trackId success status orderId now
        (.ok (.obj vf)) (.ok (.obj wf))).1 =
      ⟨settings.TICKETING_FRONTEND_URL ++ "/payment/failed" ++
        "?error=" ++ pyStr ((objGet vf "message").getD (.str "Unknown error")) ++
        "&trackId=" ++ trackId, 303⟩ := by
  unfold zibal_callback
  rw [hp]
  cases h1 : pyEqNumOpt (objGet vf "result") 100 with
  | false => simp [h1]
  | true =>
    rw [h1] at hcomb
    simp at hcomb
    simp [h1, hcomb]

/-- C2 witness: verify result 102 with a message, forward success true. -/
theorem zibal_callback_failure_redirect_witness :
    (zibal_callback demoSettings "998877" 1 2 none "2024-01-01T00:00:00"
        (.ok (.obj [("result", Json.num 102), ("message", Json.str "sandbox merchant")]))
        (.ok (.obj [("success", Json.bool true)]))).1 =
      ⟨"https://fe.example.com/payment/failed?error=sandbox merchant&trackId=998877", 303⟩ :=
  (zibal_callback_failure_redirect demoSettings "998877" 1 2 none "2024-01-01T00:00:00"
      998877 _ _ (by decide) (by decide)).trans (by decide)

/-- C3: `create_signature` computes exactly the signature scheme as the
spec words it — lowercase hex of HMAC-SHA256, keyed with the webhook
secret, over the UTF-8 bytes of the colon-join of trackId and the
decimal forms of success and status, in that order. -/
theorem create_signature_matches_spec (settings : Settings) (data : WebhookData) :
    create_signature settings data =
      sign settings.WEBHOOK_SECRET data.trackId data.success data.status := rfl

set_option maxRecDepth 8192 in
/-- Validation of the digest core against the one-block NIST vector:
SHA-256 of `"abc"` (FIPS 180-4 appendix). -/
theorem sha256_vector_one_block :
    hexdigest (sha256 (utf8Encode "abc")) =
      "ba7816bf8f01cfea414140de5dae2223b00361a396177a9cb410ff61f20015ad" := by decide

set_option maxRecDepth 8192 in
/-- Validation of the digest core against the two-block NIST vector: a
56-byte message, the residue class where the padding rolls into a
second block (the zero count must be 63, not 0). -/
theorem sha256_vector_two_blocks :
    hexdigest (sha256 (utf8Encode "abcdbcdecdefdefgefghfghighijhijkijkljklmklmnlmnomnopnopq")) =
      "248d6a61d20638b8e5c026930c3e6039a33ce45964ff2167f6ecedd419db06c1" := by decide

set_option maxRecDepth 8192 in
/-- Validation at the other end of the roll-over residue range: a
63-byte message (zero count 56). -/
theorem sha256_vector_len63 :
    hexdigest (sha256 (List.replicate 63 97)) =
      "7d3e74a05d7db15bce4ad9ec0658ea98e3f06eeecf16b4c6fff2da457ddc2f34" := by decide

set_option maxRecDepth 8192 in
/-- Validation of the HMAC construction against the classic RFC test
vector (key `"key"`, the quick-brown-fox message). -/
theorem hmacSha256_vector :
    hexdigest (hmacSha256 (utf8Encode "key")
        (utf8Encode "The quick brown fox jumps over the lazy dog")) =
      "f7bc83f430538424b13298e6aa6fb143ef4d59a14946175997479dbc2d1a3cd8" := by decide

set_option maxRecDepth 8192 in
/-- Validation of `create_signature` end to end at a boundary length: a
52-character trackId makes the signed message `"T...T:1:2"` exactly 56
bytes long; the value matches CPython
`hmac.new(b"secret", msg, hashlib.sha256).hexdigest()`. -/
theorem create_signature_boundary_length :
    create_signature demoSettings
        ⟨String.mk (List.replicate 52 'T'), 1, 2, none, Json.null, "ts"⟩ =
      "2a0ea9e40903ceb19e7cf88ea6b4c28237a6464f923628d773ee9c545ee02ba9" := by decide

/-- C4: the signature is a deterministic pure function of exactly
(trackId, success, status, secret); payloads differing in orderId,
verifyResult or timestamp sign identically. -/
theorem create_signature_deterministic (s1 s2 : Settings) (d1 d2 : WebhookData)
    (hsec : s1.WEBHOOK_SECRET = s2.WEBHOOK_SECRET)
    (ht : d1.trackId = d2.trackId) (hs : d1.success = d2.success)
    (hst : d1.status = d2.status) :
    create_signature s1 d1 = create_signature s2 d2 := by
  unfold create_signature createSignatureMessage
  rw [hsec, ht, hs, hst]

/-- C4 witness: two payloads differing in orderId, verifyResult and
timestamp sign identically. -/
theorem create_signature_deterministic_witness :
    create_signature demoSettings ⟨"998877", 1, 2, none, Json.null, "2024-01-01T00:00:00"⟩ =
      create_signature demoSettings
        ⟨"998877", 1, 2, some "ORD-7", Json.obj [("result", Json.num 100)],
         "2024-06-30T12:34:56"⟩ :=
  create_signature_deterministic _ _ _ _ rfl rfl rfl rfl

/-- C5: a transport-level failure on either outbound call yields the 303
redirect `<frontend>/payment/failed?error=Connection+error` (for the
forward call regardless of the verify body), and no call is retried:
the trace holds at most one verify and at most one webhook request. -/
theorem zibal_callback_connection_error (settings : Settings) (trackId : String)
    (success status : Int) (orderId : Option String) (now : String) (tid : Int)
    (wo : CallOutcome) (v : Json)
    (hp : pyParseInt trackId = some tid) :
    ((zibal_callback settings trackId success status orderId now .networkError wo).1 =
        ⟨settings.TICKETING_FRONTEND_URL ++ "/payment/failed?error=Connection+error", 303⟩ ∧
      (zibal_callback settings trackId success status orderId now .networkError wo).2.countP
          isVerifyCall ≤ 1 ∧
      (zibal_callback settings trackId success status orderId now .networkError wo).2.countP
          isWebhookCall ≤ 1) ∧
    ((zibal_callback settings trackId success status orderId now (.ok v) .networkError).1 =
        ⟨settings.TICKETING_FRONTEND_URL ++ "/payment/failed?error=Connection+error", 303⟩ ∧
      (zibal_callback settings trackId success status orderId now (.ok v) .networkError).2.countP
          isVerifyCall ≤ 1 ∧
      (zibal_callback settings trackId success status orderId now (.ok v) .networkError).2.countP
          isWebhookCall ≤ 1) := by
  unfold zibal_callback
  rw [hp]
  refine ⟨⟨rfl, ?_, ?_⟩, rfl, ?_, ?_⟩ <;> simp [List.countP, List.countP.go, isVerifyCall, isWebhookCall]

/-- C5 witness: both failure scenarios at the concrete scenario inputs. -/
theorem zibal_callback_connection_error_witness :
    (zibal_callback demoSettings "998877" 1 2 none "2024-01-01T00:00:00"
        .networkError (.ok (.obj [("success", Json.bool true)]))).1 =
      ⟨"https://fe.example.com/payment/failed?error=Connection+error", 303⟩ ∧
    (zibal_callback demoSettings "998877" 1 2 none "2024-01-01T00:00:00"
        (.ok (.obj [("result", Json.num 100)])) .networkError).1 =
      ⟨"https://fe.example.com/payment/failed?error=Connection+error", 303⟩ := by
  have h := zibal_callback_connection_error demoSettings "998877" 1 2 none
    "2024-01-01T00:00:00" 998877 (.ok (.obj [("success", Json.bool true)]))
    (.obj [("result", Json.num 100)]) (by decide)
  exact ⟨h.1.1.trans (by decide), h.2.1.trans (by decide)⟩

/-- C8: whenever the verify call completes and its body parses (to any
JSON value, mapping or not), the webhook request is issued to the
internal API strictly after the verify request — the trace is exactly
the two calls in order, whatever the forward outcome and whatever the
verify result value. -/
theorem zibal_callback_forward_issued (settings : Settings) (trackId : String)
    (success status : Int) (orderId : Option String) (now : String) (tid : Int)
    (v : Json) (wo : CallOutcome)
    (hp : pyParseInt trackId = some tid) :
    (zibal_callback settings trackId success status orderId now (.ok v) wo).2 =
      [.verifyCall settings.ZIBAL_MERCHANT_ID tid,
       .webhookCall ⟨trackId, success, status, orderId, v, now⟩
         (create_signature settings ⟨trackId, success, status, orderId, v, now⟩)] := by
  unfold zibal_callback
  rw [hp]
  rcases wo with _ | _ | w
  · rfl
  · rfl
  rcases v with _ | b | n | s | xs | vf <;> try rfl
  by_cases hr : pyEqNumOpt (objGet vf "result") 100 = true
  · rcases w with _ | b | n | s | xs | wf <;> simp [hr]
    by_cases hs : truthy ((objGet wf "success").getD .null) = true <;> simp [hs]
  · simp [hr]

/-- C8 witness: verify result 102 (not fully verified) with a forward
network failure — the webhook request is still issued, after the verify. -/
theorem zibal_callback_forward_issued_witness :
    (zibal_callback demoSettings "998877" 1 2 none "2024-01-01T00:00:00"
        (.ok (.obj [("result", Json.num 102)])) .networkError).2 =
      [.verifyCall "zibal" 998877,
       .webhookCall ⟨"998877", 1, 2, none, Json.obj [("result", Json.num 102)],
           "2024-01-01T00:00:00"⟩
         (create_signature demoSettings
           ⟨"998877", 1, 2, none, Json.obj [("result", Json.num 102)],
            "2024-01-01T00:00:00"⟩)] := by
  have h := zibal_callback_forward_issued demoSettings "998877" 1 2 none
    "2024-01-01T00:00:00" 998877 (.obj [("result", Json.num 102)]) .networkError (by decide)
  simpa using h

/-- C6 counterexample: a run in which the forward response body is not a
mapping (a JSON array) yet the handler does not return the System-error
redirect: the verify result is 102, so the short-circuiting condition
never inspects the forward body and the ordinary failure redirect
(carrying the gateway message) is returned instead. -/
theorem zibal_callback_system_error_counterexample :
    (zibal_callback demoSettings "5" 1 2 none "2024-01-01T00:00:00"
        (.ok (.obj [("result", Json.num 102), ("message", Json.str "m")]))
        (.ok (.arr []))).1 =
      ⟨"https://fe.example.com/payment/failed?error=m&trackId=5", 303⟩ ∧
    (zibal_callback demoSettings "5" 1 2 none "2024-01-01T00:00:00"
        (.ok (.obj [("result", Json.num 102), ("message", Json.str "m")]))
        (.ok (.arr []))).1 ≠
      ⟨"https://fe.example.com/payment/failed?error=System+error", 303⟩ := by
  constructor
  · decide
  · decide

/-- C6 (amended): the System-error redirect is produced exactly when the
unexpected failure actually occurs during handling: trackId not
integer-parsable; either response body failing to parse; a non-mapping
verify body (inspected once the forward response has parsed); or a
non-mapping forward body when the verify result equals 100.  The error
detail never reaches the redirect: the URL is the fixed
`/payment/failed?error=System+error`. -/
theorem zibal_callback_system_error (settings : Settings) (trackId : String)
    (success status : Int) (orderId : Option String) (now : String) (tid : Int)
    (vo wo : CallOutcome) (v w : Json) (vf : List (String × Json)) :
    (pyParseInt trackId = none →
      (zibal_callback settings trackId success status orderId now vo wo).1 =
        ⟨settings.TICKETING_FRONTEND_URL ++ "/payment/failed?error=System+error", 303⟩) ∧
    (pyParseInt trackId = some tid →
      (zibal_callback settings trackId success status orderId now .badBody wo).1 =
        ⟨settings.TICKETING_FRONTEND_URL ++ "/payment/failed?error=System+error", 303⟩) ∧
    (pyParseInt trackId = some tid →
      (zibal_callback settings trackId success status orderId now (.ok v) .badBody).1 =
        ⟨settings.TICKETING_FRONTEND_URL ++ "/payment/failed?error=System+error", 303⟩) ∧
    (pyParseInt trackId = some tid → isObj v = false →
      (zibal_callback settings trackId success status orderId now (.ok v) (.ok w)).1 =
        ⟨settings.TICKETING_FRONTEND_URL ++ "/payment/failed?error=System+error", 303⟩) ∧
    (pyParseInt trackId = some tid →
      pyEqNumOpt (objGet vf "result") 100 = true → isObj w = false →
      (zibal_callback settings trackId success status orderId now (.ok (.obj vf)) (.ok w)).1 =
        ⟨settings.TICKETING_FRONTEND_URL ++ "/payment/failed?error=System+error", 303⟩) := by
  refine ⟨fun hp => ?_, fun hp => ?_, fun hp => ?_, fun hp hv => ?_, fun hp hr hw => ?_⟩ <;>
    unfold zibal_callback <;> rw [hp]
  · rcases v with _ | b | n | s | xs | vf2 <;> try rfl
    simp [isObj] at hv
  · rcases w with _ | b | n | s | xs | wf <;> simp_all [isObj]

/-- C6 witness: a non-numeric trackId yields the System-error redirect. -/
theorem zibal_callback_system_error_witness :
    (zibal_callback demoSettings "abc" 1 2 none "2024-01-01T00:00:00"
        (.ok (.obj [("result", Json.num 100)])) (.ok (.obj [("success", Json.bool true)]))).1 =
      ⟨"https://fe.example.com/payment/failed?error=System+error", 303⟩ :=
  ((zibal_callback_system_error demoSettings "abc" 1 2 none "2024-01-01T00:00:00" 0
      (.ok (.obj [("result", Json.num 100)])) (.ok (.obj [("success", Json.bool true)]))
      Json.null Json.null []).1 (by decide)).trans (by decide)

/-- C10 (implicit): the failure redirect is built by plain string
concatenation with no URL-encoding — for a gateway message string `m`,
the URL is exactly `<frontend> ++ "/payment/failed" ++ "?error=" ++ m ++
"&trackId=" ++ trackId`, whatever characters `m` holds. -/
theorem zibal_callback_failure_url_verbatim (settings : Settings) (trackId : String)
    (success status : Int) (orderId : Option String) (now : String) (tid : Int)
    (vf : List (String × Json)) (w : Json) (m : String)
    (hp : pyParseInt trackId = some tid)
    (hm : objGet vf "message" = some (.str m))
    (hr : pyEqNumOpt (objGet vf "result") 100 = false) :
    (zibal_callback settings trackId success status orderId now
        (.ok (.obj vf)) (.ok w)).1.url =
      settings.TICKETING_FRONTEND_URL ++ "/payment/failed" ++
        "?error=" ++ m ++ "&trackId=" ++ trackId := by
  unfold zibal_callback
  rw [hp]
  simp [hr, hm, pyStr]

/-- C10 witness: a message holding `&` and `=` is embedded verbatim,
injecting extra query parameters. -/
theorem zibal_callback_failure_url_verbatim_witness :
    (zibal_callback demoSettings "998877" 1 2 none "2024-01-01T00:00:00"
        (.ok (.obj [("result", Json.num 102), ("message", Json.str "x&admin=1")]))
        (.ok (.obj [("success", Json.bool true)]))).1.url =
      "https://fe.example.com/payment/failed?error=x&admin=1&trackId=998877" :=
  (zibal_callback_failure_url_verbatim demoSettings "998877" 1 2 none "2024-01-01T00:00:00"
      998877 [("result", Json.num 102), ("message", Json.str "x&admin=1")]
      (.obj [("success", Json.bool true)]) "x&admin=1"
      (by decide) rfl (by decide)).trans (by decide)

/-! ## Decimal rendering is injective -/

theorem ofDigits_natDigitsAux : ∀ (fuel n : Nat), n ≤ fuel →
    ofDigits (natDigitsAux fuel n) = n := by
  intro fuel
  induction fuel with
  | zero =>
    intro n hn
    have h0 : n = 0 := Nat.le_zero.mp hn
    subst h0
    rfl
  | succ f ih =>
    intro n hn
    by_cases h0 : n = 0
    · subst h0
      simp [natDigitsAux, ofDigits]
    · have hdiv : n / 10 ≤ f := by
        have := Nat.div_lt_self (Nat.pos_of_ne_zero h0) (by norm_num : (1 : Nat) < 10)
        omega
      simp only [natDigitsAux, h0, if_false, ofDigits, ih _ hdiv]
      omega

theorem natDigitsAux_lt : ∀ (fuel n : Nat), ∀ d ∈ natDigitsAux fuel n, d < 10 := by
  intro fuel
  induction fuel with
  | zero => intro n d hd; simp [natDigitsAux] at hd
  | succ f ih =>
    intro n d hd
    by_cases h0 : n = 0
    · subst h0; simp [natDigitsAux] at hd
    · simp only [natDigitsAux, h0, if_false, List.mem_cons] at hd
      rcases hd with rfl | hd
      · omega
      · exact ih _ _ hd

theorem natDigitsPad_lt (n : Nat) : ∀ d ∈ natDigitsPad n, d < 10 := by
  intro d hd
  unfold natDigitsPad at hd
  split at hd
  · simp at hd; omega
  · exact natDigitsAux_lt n n d hd

theorem ofDigits_natDigitsPad (n : Nat) : ofDigits (natDigitsPad n) = n := by
  unfold natDigitsPad
  split
  · simp [ofDigits]; omega
  · exact ofDigits_natDigitsAux n n le_rfl

theorem natDigitsPad_ne_nil (n : Nat) : natDigitsPad n ≠ [] := by
  unfold natDigitsPad
  split
  · simp
  · unfold natDigits
    rcases n with _ | m
    · simp_all
    · simp [natDigitsAux]

theorem natRepr_eq_pad (n : Nat) :
    natRepr n = String.mk ((natDigitsPad n).reverse.map digitChar) := by
  unfold natRepr natDigitsPad natDigits
  split
  · rfl
  · rfl

theorem digitChar_inj : ∀ d₁ < 10, ∀ d₂ < 10,
    digitChar d₁ = digitChar d₂ → d₁ = d₂ := by decide

theorem digitChar_ne_dash : ∀ d < 10, digitChar d ≠ '-' := by decide

theorem digitChar_ne_colon : ∀ d < 10, digitChar d ≠ ':' := by decide

theorem map_digitChar_inj : ∀ (xs ys : List Nat), (∀ d ∈ xs, d < 10) →
    (∀ d ∈ ys, d < 10) → xs.map digitChar = ys.map digitChar → xs = ys := by
  intro xs
  induction xs with
  | nil =>
    intro ys _ _ h
    cases ys with
    | nil => rfl
    | cons y ys => simp at h
  | cons x xs ih =>
    intro ys hx hy h
    cases ys with
    | nil => simp at h
    | cons y ys =>
      simp only [List.map_cons, List.cons.injEq] at h
      have hx0 : x < 10 := hx x (by simp)
      have hy0 : y < 10 := hy y (by simp)
      rw [digitChar_inj x hx0 y hy0 h.1,
          ih ys (fun d hd => hx d (by simp [hd])) (fun d hd => hy d (by simp [hd])) h.2]

theorem natRepr_inj (n m : Nat) (h : natRepr n = natRepr m) : n = m := by
  rw [natRepr_eq_pad, natRepr_eq_pad] at h
  have hd : (natDigitsPad n).reverse.map digitChar =
      (natDigitsPad m).reverse.map digitChar := congrArg String.data h
  have hrev := map_digitChar_inj _ _
    (fun d hdm => natDigitsPad_lt n d (List.mem_reverse.mp hdm))
    (fun d hdm => natDigitsPad_lt m d (List.mem_reverse.mp hdm)) hd
  have hpad := List.reverse_injective hrev
  have := congrArg ofDigits hpad
  rwa [ofDigits_natDigitsPad, ofDigits_natDigitsPad] at this

theorem natRepr_head_digit (n : Nat) :
    ∃ e es, (natRepr n).data = digitChar e :: es ∧ e < 10 := by
  rw [natRepr_eq_pad]
  rcases hrev : (natDigitsPad n).reverse with _ | ⟨e, es⟩
  · exact absurd (List.reverse_eq_nil_iff.mp hrev) (natDigitsPad_ne_nil n)
  · refine ⟨e, es.map digitChar, rfl, ?_⟩
    exact natDigitsPad_lt n e (List.mem_reverse.mp (by rw [hrev]; simp))

theorem pyIntRepr_inj (i j : Int) (h : pyIntRepr i = pyIntRepr j) : i = j := by
  cases i with
  | ofNat n =>
    cases j with
    | ofNat m => exact congrArg Int.ofNat (natRepr_inj n m h)
    | negSucc b =>
      obtain ⟨e, es, hdata, he⟩ := natRepr_head_digit n
      have hd : (natRepr n).data = ('-' :: (natRepr (b + 1)).data) := by
        have := congrArg String.data h
        rwa [show pyIntRepr (Int.negSucc b) = "-" ++ natRepr (b + 1) from rfl,
             String.data_append] at this
      rw [hdata] at hd
      exact absurd (List.head_eq_of_cons_eq hd) (digitChar_ne_dash e he)
  | negSucc a =>
    cases j with
    | ofNat m =>
      obtain ⟨e, es, hdata, he⟩ := natRepr_head_digit m
      have hd : (natRepr m).data = ('-' :: (natRepr (a + 1)).data) := by
        have := congrArg String.data h.symm
        rwa [show pyIntRepr (Int.negSucc a) = "-" ++ natRepr (a + 1) from rfl,
             String.data_append] at this
      rw [hdata] at hd
      exact absurd (List.head_eq_of_cons_eq hd) (digitChar_ne_dash e he)
    | negSucc b =>
      have hd := congrArg String.data h
      rw [show pyIntRepr (Int.negSucc a) = "-" ++ natRepr (a + 1) from rfl,
          show pyIntRepr (Int.negSucc b) = "-" ++ natRepr (b + 1) from rfl,
          String.data_append, String.data_append] at hd
      have htail := List.append_cancel_left hd
      have hab : a = b := by
        have := natRepr_inj (a + 1) (b + 1) (String.ext htail)
        omega
      rw [hab]

/-! ## The signed message determines its fields -/

theorem natRepr_no_colon (n : Nat) : ':' ∉ (natRepr n).data := by
  rw [natRepr_eq_pad]
  intro hc
  have hc' : ':' ∈ (natDigitsPad n).reverse.map digitChar := hc
  rw [List.mem_map] at hc'
  obtain ⟨d, hdm, hcd⟩ := hc'
  exact digitChar_ne_colon d (natDigitsPad_lt n d (List.mem_reverse.mp hdm)) hcd

theorem pyIntRepr_no_colon (k : Int) : ':' ∉ (pyIntRepr k).data := by
  cases k with
  | ofNat n => exact natRepr_no_colon n
  | negSucc m =>
    intro hc
    rw [show pyIntRepr (Int.negSucc m) = "-" ++ natRepr (m + 1) from rfl,
        String.data_append] at hc
    rcases List.mem_append.mp hc with hl | hr
    · have : (':' : Char) = '-' := by
        have hdash : ("-" : String).data = ['-'] := rfl
        rw [hdash] at hl
        exact List.mem_singleton.mp hl
      exact absurd this (by decide)
    · exact natRepr_no_colon (m + 1) hr

theorem splitAtColon : ∀ (xs xs' ys ys' : List Char), ':' ∉ xs → ':' ∉ xs' →
    xs ++ ':' :: ys = xs' ++ ':' :: ys' → xs = xs' ∧ ys = ys' := by
  intro xs
  induction xs with
  | nil =>
    intro xs' ys ys' _ hx' h
    cases xs' with
    | nil => simpa using h
    | cons c cs =>
      simp only [List.nil_append, List.cons_append, List.cons.injEq] at h
      exact absurd (h.1 ▸ List.mem_cons_self c cs) hx'
  | cons c cs ih =>
    intro xs' ys ys' hx hx' h
    cases xs' with
    | nil =>
      simp only [List.nil_append, List.cons_append, List.cons.injEq] at h
      exact absurd (h.1 ▸ List.mem_cons_self c cs) hx
    | cons c' cs' =>
      simp only [List.cons_append, List.cons.injEq] at h
      obtain ⟨hcs, hys⟩ := ih cs' ys ys'
        (fun hm => hx (List.mem_cons_of_mem c hm))
        (fun hm => hx' (List.mem_cons_of_mem c' hm)) h.2
      exact ⟨by rw [h.1, hcs], hys⟩

theorem createSignatureMessage_data (t : String) (s st : Int) :
    (createSignatureMessage t s st).data =
      t.data ++ ':' :: ((pyIntRepr s).data ++ ':' :: (pyIntRepr st).data) := by
  have hcolon : (":" : String).data = [':'] := rfl
  unfold createSignatureMessage
  rw [String.data_append, String.data_append, String.data_append, String.data_append,
      hcolon]
  simp [List.append_assoc]

/-- C9 (amended): the signed message `"{trackId}:{success}:{status}"`
determines the three fields: changing any one of them (the others held
fixed) changes the message, and swapping success and status changes the
message unless they are equal.  Hence two such inputs produce different
digests unless HMAC-SHA256 itself collides on the two distinct messages
(which, by `create_signature_field_change_counterexample`, cannot be
ruled out for the digest in general). -/
theorem createSignatureMessage_field_sensitive (t t' : String) (s s' st st' : Int) :
    (t ≠ t' → createSignatureMessage t s st ≠ createSignatureMessage t' s st) ∧
    (s ≠ s' → createSignatureMessage t s st ≠ createSignatureMessage t s' st) ∧
    (st ≠ st' → createSignatureMessage t s st ≠ createSignatureMessage t s st') ∧
    (s ≠ st → createSignatureMessage t s st ≠ createSignatureMessage t st s) := by
  refine ⟨fun hne heq => hne ?_, fun hne heq => hne ?_,
          fun hne heq => hne ?_, fun hne heq => hne ?_⟩ <;>
    (have hd := congrArg String.data heq;
     rw [createSignatureMessage_data, createSignatureMessage_data] at hd)
  · exact String.ext (List.append_cancel_right hd)
  · have h2 := List.append_cancel_left hd
    injection h2 with _ h3
    obtain ⟨h4, _⟩ := splitAtColon _ _ _ _ (pyIntRepr_no_colon s) (pyIntRepr_no_colon s') h3
    exact pyIntRepr_inj _ _ (String.ext h4)
  · have h2 := List.append_cancel_left hd
    injection h2 with _ h3
    obtain ⟨_, h4⟩ := splitAtColon _ _ _ _ (pyIntRepr_no_colon s) (pyIntRepr_no_colon s) h3
    exact pyIntRepr_inj _ _ (String.ext h4)
  · have h2 := List.append_cancel_left hd
    injection h2 with _ h3
    obtain ⟨h4, _⟩ := splitAtColon _ _ _ _ (pyIntRepr_no_colon s) (pyIntRepr_no_colon st) h3
    exact pyIntRepr_inj _ _ (String.ext h4)

/-- C9 amended witness: concrete field changes and the success/status
swap all change the signed message. -/
theorem createSignatureMessage_field_sensitive_witness :
    createSignatureMessage "TA" 1 2 ≠ createSignatureMessage "TB" 1 2 ∧
    createSignatureMessage "TA" 1 2 ≠ createSignatureMessage "TA" 3 2 ∧
    createSignatureMessage "TA" 1 2 ≠ createSignatureMessage "TA" 1 4 ∧
    createSignatureMessage "TA" 1 2 ≠ createSignatureMessage "TA" 2 1 :=
  ⟨(createSignatureMessage_field_sensitive "TA" "TB" 1 3 2 4).1 (by decide),
   (createSignatureMessage_field_sensitive "TA" "TB" 1 3 2 4).2.1 (by decide),
   (createSignatureMessage_field_sensitive "TA" "TB" 1 3 2 4).2.2.1 (by decide),
   (createSignatureMessage_field_sensitive "TA" "TB" 1 3 2 4).2.2.2 (by decide)⟩

/-! ## The digest itself cannot be collision-free -/

theorem sha256_length (m : List Nat) : (sha256 m).length = 32 := by
  simp [sha256, wordBytes]

theorem wordBytes_lt (w : Nat) : ∀ b ∈ wordBytes w, b < 256 := by
  intro b hb
  simp only [wordBytes, List.mem_cons, List.not_mem_nil, or_false] at hb
  rcases hb with rfl | rfl | rfl | rfl <;> omega

theorem sha256_mem_lt (m : List Nat) : ∀ b ∈ sha256 m, b < 256 := by
  intro b hb
  simp only [sha256, List.mem_append] at hb
  rcases hb with ((((((h | h) | h) | h) | h) | h) | h) | h <;> exact wordBytes_lt _ b h

theorem demoDigestBytes_length (t : String) : (demoDigestBytes t).length = 32 :=
  sha256_length _

theorem demoDigestBytes_mem_lt (t : String) : ∀ b ∈ demoDigestBytes t, b < 256 :=
  sha256_mem_lt _

theorem demoDigestBytes_getD_lt (t : String) (i : Nat) :
    (demoDigestBytes t).getD i 0 < 256 := by
  by_cases hi : i < (demoDigestBytes t).length
  · rw [List.getD_eq_get?, List.get?_eq_get hi]
    exact demoDigestBytes_mem_lt t _ (List.get_mem _ _ _)
  · rw [List.getD_eq_get?, List.get?_eq_none.mpr (le_of_not_lt hi)]
    norm_num

theorem demoDigestBytes_ext (t₁ t₂ : String) (h : demoByteFun t₁ = demoByteFun t₂) :
    demoDigestBytes t₁ = demoDigestBytes t₂ := by
  apply List.ext_get ((demoDigestBytes_length t₁).trans (demoDigestBytes_length t₂).symm)
  intro n h₁ h₂
  have h32 : n < 32 := by rw [demoDigestBytes_length] at h₁; exact h₁
  have hv := congrArg Fin.val (congrFun h ⟨n, h32⟩)
  simp only [demoByteFun] at hv
  rw [Nat.mod_eq_of_lt (demoDigestBytes_getD_lt t₁ n),
      Nat.mod_eq_of_lt (demoDigestBytes_getD_lt t₂ n),
      List.getD_eq_get?, List.getD_eq_get?,
      List.get?_eq_get h₁, List.get?_eq_get h₂] at hv
  simpa using hv

/-- C9 counterexample: the claim "changing any one of the three input
fields changes the resulting digest", read over all inputs, is false for
the digest: the digest ranges over a finite set while trackId ranges
over an infinite one, so by pigeonhole two distinct trackIds (success
and status held fixed) share a signature. -/
theorem create_signature_field_change_counterexample :
    ¬ (∀ t₁ t₂ : String, t₁ ≠ t₂ →
        create_signature demoSettings ⟨t₁, 1, 2, none, Json.null, "2024-01-01T00:00:00"⟩ ≠
        create_signature demoSettings ⟨t₂, 1, 2, none, Json.null, "2024-01-01T00:00:00"⟩) := by
  intro hall
  obtain ⟨t₁, t₂, hne, heq⟩ := Finite.exists_ne_map_eq_of_infinite demoByteFun
  exact hall t₁ t₂ hne (congrArg hexdigest (demoDigestBytes_ext t₁ t₂ heq))
